import Mathlib

/-!
Verification of `digi_lib_app/windows/flutter/generated_plugin_registrant.cc`.

The file contains a single function,

  void RegisterPlugins(flutter::PluginRegistry* registry)

whose body is ten statements, each of the form

  XRegisterWithRegistrar(registry->GetRegistrarForPlugin("Y"));

We embed the function as a trace-producing function: the host registry is a
record holding the lookup `GetRegistrarForPlugin`, registrar handles are
pointer-like values (`Option Nat`, with `none` for a null pointer), and each
C++ statement contributes its two observable calls — the lookup on the
registry and the external registration call — to an event trace, in program
order.  The `void` return of the C++ function is the `Unit` component of the
result.
-/

namespace DigiLib

/-- A registrar handle (`FlutterDesktopPluginRegistrarRef` behind the
`flutter::PluginRegistrar` API) is an opaque pointer owned by the host;
we model it as `Option Nat`, with `none` standing for a null pointer. -/
abbrev RegistrarRef := Option Nat

/-- The host `flutter::PluginRegistry`: the only member this file ever
calls is `GetRegistrarForPlugin`, which takes a plugin name and returns a
registrar handle. -/
structure PluginRegistry where
  getRegistrarForPlugin : String → RegistrarRef

/-- One observable call made while `RegisterPlugins` runs: either a lookup
on the host registry, or an invocation of an external plugin registration
entry point with the registrar handle it is passed. -/
inductive Event where
  | getRegistrarForPlugin (pluginName : String)
  | registerWithRegistrar (entryPoint : String) (registrar : RegistrarRef)
deriving DecidableEq

/-- The trace of one C++ statement
`entryPoint(registry->GetRegistrarForPlugin(pluginName));`:
the registry lookup followed by the registration call receiving the value
the lookup returned. -/
def statementTrace (registry : PluginRegistry) (entryPoint pluginName : String) : List Event :=
  [Event.getRegistrarForPlugin pluginName,
   Event.registerWithRegistrar entryPoint (registry.getRegistrarForPlugin pluginName)]

/-- Embedding of `RegisterPlugins` from
`generated_plugin_registrant.cc` lines 20-41: the `void` result paired with
the trace of the ten statements in source order. -/
def RegisterPlugins (registry : PluginRegistry) : Unit × List Event :=
  ((),
    statementTrace registry "AutoUpdaterPluginRegisterWithRegistrar" "AutoUpdaterPlugin" ++
    statementTrace registry "BatteryPlusWindowsPluginRegisterWithRegistrar" "BatteryPlusWindowsPlugin" ++
    statementTrace registry "ConnectivityPlusWindowsPluginRegisterWithRegistrar" "ConnectivityPlusWindowsPlugin" ++
    statementTrace registry "DesktopDropPluginRegisterWithRegistrar" "DesktopDropPlugin" ++
    statementTrace registry "FlutterSecureStorageWindowsPluginRegisterWithRegistrar" "FlutterSecureStorageWindowsPlugin" ++
    statementTrace registry "HotkeyManagerWindowsPluginCApiRegisterWithRegistrar" "HotkeyManagerWindowsPluginCApi" ++
    statementTrace registry "ScreenRetrieverPluginRegisterWithRegistrar" "ScreenRetrieverPlugin" ++
    statementTrace registry "SystemTrayPluginRegisterWithRegistrar" "SystemTrayPlugin" ++
    statementTrace registry "UrlLauncherWindowsRegisterWithRegistrar" "UrlLauncherWindows" ++
    statementTrace registry "WindowManagerPluginRegisterWithRegistrar" "WindowManagerPlugin")

/-- The registration calls of a trace, as pairs of the entry point invoked
and the registrar handle it received, in order. -/
def registrationPairs : List Event → List (String × RegistrarRef)
  | [] => []
  | Event.registerWithRegistrar f r :: tr => (f, r) :: registrationPairs tr
  | Event.getRegistrarForPlugin _ :: tr => registrationPairs tr

/-- The registration entry points invoked by a trace, in order. -/
def registrationEntryPoints (tr : List Event) : List String :=
  (registrationPairs tr).map Prod.fst

/-- The plugin names passed to `GetRegistrarForPlugin` in a trace, in order. -/
def lookupNames : List Event → List String
  | [] => []
  | Event.getRegistrarForPlugin n :: tr => n :: lookupNames tr
  | Event.registerWithRegistrar _ _ :: tr => lookupNames tr

/-- True for a call on the host registry. -/
def Event.isRegistryLookup : Event → Bool
  | Event.getRegistrarForPlugin _ => true
  | Event.registerWithRegistrar _ _ => false

/-- True for an invocation of an external registration entry point. -/
def Event.isRegistrationCall : Event → Bool
  | Event.getRegistrarForPlugin _ => false
  | Event.registerWithRegistrar _ _ => true

/-- The ten statements of the source body, as pairs of the entry point
called and the plugin name its statement passes to
`GetRegistrarForPlugin`, in source order. -/
def pluginTable : List (String × String) :=
  [("AutoUpdaterPluginRegisterWithRegistrar", "AutoUpdaterPlugin"),
   ("BatteryPlusWindowsPluginRegisterWithRegistrar", "BatteryPlusWindowsPlugin"),
   ("ConnectivityPlusWindowsPluginRegisterWithRegistrar", "ConnectivityPlusWindowsPlugin"),
   ("DesktopDropPluginRegisterWithRegistrar", "DesktopDropPlugin"),
   ("FlutterSecureStorageWindowsPluginRegisterWithRegistrar", "FlutterSecureStorageWindowsPlugin"),
   ("HotkeyManagerWindowsPluginCApiRegisterWithRegistrar", "HotkeyManagerWindowsPluginCApi"),
   ("ScreenRetrieverPluginRegisterWithRegistrar", "ScreenRetrieverPlugin"),
   ("SystemTrayPluginRegisterWithRegistrar", "SystemTrayPlugin"),
   ("UrlLauncherWindowsRegisterWithRegistrar", "UrlLauncherWindows"),
   ("WindowManagerPluginRegisterWithRegistrar", "WindowManagerPlugin")]

/-- The ten registration entry points, in source order. -/
def expectedEntryPoints : List String := pluginTable.map Prod.fst

/-- The ten plugin names passed to `GetRegistrarForPlugin`, in source order. -/
def expectedPluginNames : List String := pluginTable.map Prod.snd

theorem registrationPairs_RegisterPlugins (registry : PluginRegistry) :
    registrationPairs (RegisterPlugins registry).2 =
      pluginTable.map (fun p => (p.1, registry.getRegistrarForPlugin p.2)) := rfl

theorem registrationEntryPoints_RegisterPlugins (registry : PluginRegistry) :
    registrationEntryPoints (RegisterPlugins registry).2 = expectedEntryPoints := rfl

theorem lookupNames_RegisterPlugins (registry : PluginRegistry) :
    lookupNames (RegisterPlugins registry).2 = expectedPluginNames := rfl

/-- C1: for every registry, `RegisterPlugins` makes exactly ten plugin
registration calls, and each of the ten expected registration entry points
is invoked exactly once (any other entry point zero times). -/
theorem C1_ten_registrations_each_once (registry : PluginRegistry) :
    (registrationEntryPoints (RegisterPlugins registry).2).length = 10 ∧
    ∀ f : String,
      (registrationEntryPoints (RegisterPlugins registry).2).count f =
        if f ∈ expectedEntryPoints then 1 else 0 := by
  rw [registrationEntryPoints_RegisterPlugins]
  refine ⟨by decide, ?_⟩
  intro f
  by_cases h : f ∈ expectedEntryPoints
  · rw [if_pos h]
    exact List.count_eq_one_of_mem (by decide) h
  · rw [if_neg h]
    exact List.count_eq_zero_of_not_mem h

/-- C2: every registration call has the form
`XRegisterWithRegistrar(registry->GetRegistrarForPlugin("X"))`: the pairs of
entry point and registrar are exactly the table entries applied to the
registry, and in every table row the entry point is the looked-up plugin
name followed by `RegisterWithRegistrar`. -/
theorem C2_entry_point_matches_lookup_name (registry : PluginRegistry) :
    registrationPairs (RegisterPlugins registry).2 =
      pluginTable.map (fun p => (p.1, registry.getRegistrarForPlugin p.2)) ∧
    pluginTable.all (fun p => p.1 == p.2 ++ "RegisterWithRegistrar") = true :=
  ⟨rfl, by decide⟩

/-- C4: for every registry the full call sequence — lookups and
registrations alike, with registrar values erased — is one fixed list,
so the ten registrations happen in the fixed source order with no
branching or input-dependent variation. -/
theorem C4_fixed_sequence (registry : PluginRegistry) :
    (RegisterPlugins registry).2.map
        (fun e => match e with
          | Event.getRegistrarForPlugin n => (false, n)
          | Event.registerWithRegistrar f _ => (true, f)) =
      (pluginTable.map (fun p => [(false, p.2), (true, p.1)])).flatten := rfl

/-- C5: `RegisterPlugins` returns `()` (no return value, no error value)
and for every registry — including one whose lookups all fail — the ten
registration calls all happen, none skipped. -/
theorem C5_no_error_path_all_calls_made (registry : PluginRegistry) :
    (RegisterPlugins registry).1 = () ∧
    registrationEntryPoints (RegisterPlugins registry).2 = expectedEntryPoints ∧
    (registrationPairs (RegisterPlugins registry).2).length = 10 := ⟨rfl, rfl, rfl⟩

/-- C6: the only effects are the trace events — each event is either a
registry lookup or a registration call; the registry is called exactly on
the ten expected names; and every registrar passed on is exactly the value
just obtained from the registry for the corresponding table name, neither
altered nor retained. -/
theorem C6_frame_only_lookups_and_registrations (registry : PluginRegistry) :
    (RegisterPlugins registry).2.all
        (fun e => e.isRegistryLookup || e.isRegistrationCall) = true ∧
    lookupNames (RegisterPlugins registry).2 = expectedPluginNames ∧
    registrationPairs (RegisterPlugins registry).2 =
      (lookupNames (RegisterPlugins registry).2).map
        (fun n => (n ++ "RegisterWithRegistrar", registry.getRegistrarForPlugin n)) := by
  exact ⟨rfl, rfl, rfl⟩

/-- C7: `RegisterPlugins` is total straight-line code: for every registry
the trace is exactly the concatenation of the ten lookup-and-register
pairs of the table — twenty events, ten pairs, nothing else. -/
theorem C7_terminates_after_ten_pairs (registry : PluginRegistry) :
    (RegisterPlugins registry).2 =
      (pluginTable.map (fun p =>
        [Event.getRegistrarForPlugin p.2,
         Event.registerWithRegistrar p.1 (registry.getRegistrarForPlugin p.2)])).flatten ∧
    (RegisterPlugins registry).2.length = 20 ∧
    pluginTable.length = 10 := ⟨rfl, rfl, rfl⟩

/-- A host registry whose `GetRegistrarForPlugin` returns a null registrar
for every plugin name: nothing in `RegisterPlugins` prevents this. -/
def nullRegistry : PluginRegistry := ⟨fun _ => none⟩

/-- A host registry whose `GetRegistrarForPlugin` returns a non-null
registrar for every plugin name. -/
def sampleRegistry : PluginRegistry := ⟨fun _ => some 7⟩

/-- C3, counterexample: for the registry whose lookups all return null,
`RegisterPlugins` invokes a registration entry point with a null
registrar, so the registrar passed is not "never null" — the code performs
no null check and forwards whatever the host returns. -/
theorem C3_counterexample :
    Event.registerWithRegistrar "AutoUpdaterPluginRegisterWithRegistrar" none ∈
      (RegisterPlugins nullRegistry).2 ∧
    (registrationPairs (RegisterPlugins nullRegistry).2).all
        (fun q => q.2.isSome) = false := by decide

/-- C3, amended: each registration entry point receives exactly the value
the registry returns for its plugin name, unchanged; so whenever the host
registry returns a non-null registrar for each of the ten requested names,
every registration call is invoked with a non-null registrar. -/
theorem C3_nonnull_when_host_nonnull (registry : PluginRegistry)
    (h : ∀ n ∈ expectedPluginNames, (registry.getRegistrarForPlugin n).isSome = true) :
    (registrationPairs (RegisterPlugins registry).2).all
        (fun q => q.2.isSome) = true := by
  rw [registrationPairs_RegisterPlugins]
  simp only [List.all_eq_true, List.mem_map]
  rintro q ⟨p, hp, rfl⟩
  refine h p.2 ?_
  simp only [expectedPluginNames, List.mem_map]
  exact ⟨p, hp, rfl⟩

/-- C3 witness: at the registry returning registrar `7` for every name,
the hypothesis holds and every registration call gets a non-null
registrar. -/
theorem C3_nonnull_witness :
    (registrationPairs (RegisterPlugins sampleRegistry).2).all
        (fun q => q.2.isSome) = true :=
  C3_nonnull_when_host_nonnull sampleRegistry (fun _ _ => rfl)

/-- The ten capabilities the spec attributes to the registered plugins. -/
def specCapabilities : List String :=
  ["battery status", "connectivity", "drag-and-drop", "secure storage",
   "hotkeys", "screen info", "system tray", "URL launching",
   "window management", "auto-update"]

/-- The capability each registration entry point provides, matching the
plugin list of the spec; entry points outside the fixed list have none. -/
def capabilityOf : String → Option String
  | "AutoUpdaterPluginRegisterWithRegistrar" => some "auto-update"
  | "BatteryPlusWindowsPluginRegisterWithRegistrar" => some "battery status"
  | "ConnectivityPlusWindowsPluginRegisterWithRegistrar" => some "connectivity"
  | "DesktopDropPluginRegisterWithRegistrar" => some "drag-and-drop"
  | "FlutterSecureStorageWindowsPluginRegisterWithRegistrar" => some "secure storage"
  | "HotkeyManagerWindowsPluginCApiRegisterWithRegistrar" => some "hotkeys"
  | "ScreenRetrieverPluginRegisterWithRegistrar" => some "screen info"
  | "SystemTrayPluginRegisterWithRegistrar" => some "system tray"
  | "UrlLauncherWindowsRegisterWithRegistrar" => some "URL launching"
  | "WindowManagerPluginRegisterWithRegistrar" => some "window management"
  | _ => none

/-- C8: every entry point `RegisterPlugins` invokes provides one of the
ten stated capabilities (no plugin outside the list), and the
capabilities of the invoked entry points are exactly the ten of the spec,
each registered once. -/
theorem C8_registered_set_is_capability_list (registry : PluginRegistry) :
    (registrationEntryPoints (RegisterPlugins registry).2).all
        (fun f => (capabilityOf f).isSome) = true ∧
    ((registrationEntryPoints (RegisterPlugins registry).2).filterMap capabilityOf).length
        = 10 ∧
    specCapabilities.all
        (fun c =>
          ((registrationEntryPoints (RegisterPlugins registry).2).filterMap
              capabilityOf).contains c) = true ∧
    ((registrationEntryPoints (RegisterPlugins registry).2).filterMap capabilityOf).all
        (fun c => specCapabilities.contains c) = true := by
  rw [registrationEntryPoints_RegisterPlugins]
  exact ⟨by decide, by decide, by decide, by decide⟩

/-- Model of calling `RegisterPlugins` through its raw pointer parameter:
a null `registry` pointer is dereferenced by the first statement, so the
run is undefined (`none`); a non-null pointer runs the function. -/
def RegisterPluginsAtPtr : Option PluginRegistry → Option (Unit × List Event)
  | none => none
  | some registry => some (RegisterPlugins registry)

/-- C9: `RegisterPlugins` performs no null check: a null registry pointer
leaves the run undefined, and under the precondition that the pointer is
non-null the run is defined and is exactly `RegisterPlugins`; the only
pointer the function dereferences is the registry itself — registrar
handles are forwarded untouched, never dereferenced, as the trace shape
shows. -/
theorem C9_defined_iff_registry_nonnull :
    RegisterPluginsAtPtr none = none ∧
    (∀ registry : PluginRegistry,
      RegisterPluginsAtPtr (some registry) = some (RegisterPlugins registry)) ∧
    (∀ registryPtr : Option PluginRegistry,
      (RegisterPluginsAtPtr registryPtr).isSome = registryPtr.isSome) := by
  refine ⟨rfl, fun _ => rfl, fun registryPtr => ?_⟩
  cases registryPtr <;> rfl

/-- C10: the ten plugin names passed to `GetRegistrarForPlugin` are the
fixed expected names and are pairwise distinct, so no name is requested
twice and each registration call receives a registrar obtained under a
name no other call uses. -/
theorem C10_lookup_names_distinct (registry : PluginRegistry) :
    lookupNames (RegisterPlugins registry).2 = expectedPluginNames ∧
    (lookupNames (RegisterPlugins registry).2).Nodup := by
  rw [lookupNames_RegisterPlugins]
  exact ⟨rfl, by decide⟩

end DigiLib
